import Mathlib

/-!
Shallow embedding of the tammat-backend document-extraction service
(`app/services/ocr.py` and `app/main.py`).  External libraries (PIL,
pytesseract, pdf2image) are modelled as oracles bundled in `OcrEnv`;
all control flow, error wrapping and text manipulation is translated
from the Python source.
-/

/-! ### Python whitespace handling (str.strip, str.split, ' '.join) -/

/-- ASCII whitespace recognised by Python `str.strip` / `str.split`
(space, tab, newline, carriage return, vertical tab, form feed). -/
def isPySpace (c : Char) : Bool :=
  c = ' ' || c = '\t' || c = '\n' || c = '\x0d' || c = '\x0b' || c = '\x0c'

/-- Python `text.strip()` on a character list: drop leading and trailing whitespace. -/
def pyStripL (l : List Char) : List Char :=
  ((l.dropWhile isPySpace).reverse.dropWhile isPySpace).reverse

/-- Python `text.split()` on a character list: maximal whitespace-free runs
(chunks between separators, empty chunks discarded). -/
def pyTokens (l : List Char) : List (List Char) :=
  (l.splitOnP isPySpace).filter (fun t => !t.isEmpty)

/-- Lines 54-55 of `ocr.py`: `text = text.strip(); text = ' '.join(text.split())`. -/
def cleanTextL (l : List Char) : List Char :=
  List.intercalate [' '] (pyTokens (pyStripL l))

/-- Python `text.strip()` on strings. -/
def pyStripS (s : String) : String :=
  String.mk (pyStripL s.data)

/-- Python `' '.join(text.strip().split())` on strings. -/
def cleanTextS (s : String) : String :=
  String.mk (cleanTextL s.data)

/-! ### Images and external-library oracles -/

/-- An abstract PIL image: a color mode (RGB, L, P, ...) plus an
identifier distinguishing distinct pixel buffers. -/
structure PILImage where
  mode : String
  ident : Nat
deriving DecidableEq

/-- Oracles for the PIL operations used by `preprocess_image_for_ocr`:
`img.convert(mode)`, `ImageEnhance.Contrast(...).enhance(1.5)`, and
`img.filter(GaussianBlur(0.5))`.  Each may raise (modelled as `Except`). -/
structure ImageOps where
  convert : PILImage → String → Except String PILImage
  enhanceContrast : PILImage → Except String PILImage
  gaussianBlur : PILImage → Except String PILImage

/-- Oracles for the external libraries used by the extraction pipeline:
`Image.open(BytesIO(b))`, the PIL operations, `pytesseract.image_to_string`
(image, lang, config), and `pdf2image.convert_from_bytes` (bytes, dpi). -/
structure OcrEnv where
  imageOpen : List Nat → Except String PILImage
  ops : ImageOps
  imageToString : PILImage → String → String → Except String String
  convertFromBytes : List Nat → Nat → Except String (List PILImage)

/-- The pytesseract config string used throughout `ocr.py`. -/
def ocrConfig : String := "--oem 3 --psm 3"

/-! ### ocr.py -/

/-- Lines 20-21 of `ocr.py`: `if pil_img.mode != "RGB": pil_img = pil_img.convert("RGB")`.
Note the rebinding: on success the local variable now holds the converted image. -/
def rgbStep (ops : ImageOps) (img : PILImage) : Except String PILImage :=
  if img.mode ≠ "RGB" then ops.convert img "RGB" else Except.ok img

/-- Function `preprocess_image_for_ocr` (`ocr.py` lines 11-37).  The `try` body runs
RGB conversion, grayscale conversion, contrast enhancement and blur; the
`except` clause returns the current value of the (possibly rebound)
`pil_img` variable, so the function never raises. -/
def preprocess_image_for_ocr (ops : ImageOps) (img0 : PILImage) : PILImage :=
  match rgbStep ops img0 with
  | Except.error _ => img0
  | Except.ok img1 =>
    match ops.convert img1 "L" with
    | Except.error _ => img1
    | Except.ok gray =>
      match ops.enhanceContrast gray with
      | Except.error _ => img1
      | Except.ok enhanced =>
        match ops.gaussianBlur enhanced with
        | Except.error _ => img1
        | Except.ok processed => processed

/-- Function `extract_text_from_image_bytes` (`ocr.py` lines 39-72).  Primary path:
open, preprocess, recognise, strip and collapse whitespace.  On any failure
`e`, fallback path: re-open, convert to RGB if needed, recognise once more
and only strip; if the fallback also fails the result is the RuntimeError
`"Image processing failed: {e}"` carrying the original error. -/
def extract_text_from_image_bytes (env : OcrEnv) (image_bytes : List Nat)
    (lang : String) : Except String String :=
  let primary : Except String String := do
    let img ← env.imageOpen image_bytes
    let proc := preprocess_image_for_ocr env.ops img
    let text ← env.imageToString proc lang ocrConfig
    pure (cleanTextS text)
  match primary with
  | Except.ok t => Except.ok t
  | Except.error e =>
    let fallback : Except String String := do
      let img ← env.imageOpen image_bytes
      let img ← rgbStep env.ops img
      let text ← env.imageToString img lang ocrConfig
      pure (pyStripS text)
    match fallback with
    | Except.ok t => Except.ok t
    | Except.error _ => Except.error ("Image processing failed: " ++ e)

/-- Body of the per-page loop of `extract_text_from_pdf_bytes`
(`ocr.py` lines 88-106), for 0-based page index `i`: preprocess, recognise,
strip; empty text becomes the `[Page N: No text detected]` placeholder and
any exception becomes the `[Page N: Processing error]` placeholder.
There is no retry for PDF pages. -/
def pdfPageText (env : OcrEnv) (lang : String) (i : Nat) (img : PILImage) : String :=
  let proc := preprocess_image_for_ocr env.ops img
  match env.imageToString proc lang ocrConfig with
  | Except.ok raw =>
    let t := pyStripS raw
    if t = "" then "[Page " ++ toString (i + 1) ++ ": No text detected]" else t
  | Except.error _ => "[Page " ++ toString (i + 1) ++ ": Processing error]"

/-- Function `extract_text_from_pdf_bytes` (`ocr.py` lines 74-108): rasterize the
PDF (failure is terminal, re-raised as `"PDF conversion failed: {e}"`),
then map the per-page loop body over the pages in physical order. -/
def extract_text_from_pdf_bytes (env : OcrEnv) (pdf_bytes : List Nat)
    (lang : String) (dpi : Nat) : Except String (List String) :=
  match env.convertFromBytes pdf_bytes dpi with
  | Except.error e => Except.error ("PDF conversion failed: " ++ e)
  | Except.ok images => Except.ok (images.enum.map (fun p => pdfPageText env lang p.1 p.2))

/-! ### main.py: classification -/

/-- Python `PurePosixPath(filename).name`: the last nonempty path component
(trailing slashes ignored). -/
def pathNameL (l : List Char) : List Char :=
  ((l.reverse.dropWhile (fun c => c = '/')).takeWhile (fun c => c ≠ '/')).reverse

/-- Python `PurePosixPath(filename).suffix`: the substring of the name from its
last dot, provided that dot is neither the first nor the last character
of the name; otherwise empty. -/
def pathSuffixL (name : List Char) : List Char :=
  match (name.reverse.findIdx? (fun c => c = '.')) with
  | none => []
  | some j =>
    let i := name.length - 1 - j
    if 0 < i ∧ i < name.length - 1 then name.drop i else []

/-- Python `Path(filename).suffix.lower()` as used by `validate_file_type`. -/
def suffixLower (filename : String) : String :=
  String.mk ((pathSuffixL (pathNameL filename.data)).map Char.toLower)

/-- Constant `SUPPORTED_IMAGE_TYPES` (`main.py` line 64). -/
def SUPPORTED_IMAGE_TYPES : List String :=
  [".png", ".jpg", ".jpeg", ".bmp", ".tiff", ".webp"]

/-- Constant `SUPPORTED_PDF_TYPES` (`main.py` line 65). -/
def SUPPORTED_PDF_TYPES : List String := [".pdf"]

/-- The exceptions raised by the endpoint code in `main.py`, by identity:
HTTPException(400, "Filename is required"), HTTPException(400, "Unsupported
file type. ..."), HTTPException(400, "Empty file"), HTTPException(400,
"Invalid image file: {e}"), HTTPException(400, "Invalid PDF file: {e}"),
HTTPException(400, "No files provided"), HTTPException(400, "Maximum 10
files allowed per batch") and HTTPException(500, msg). -/
inductive ApiError where
  | filenameRequired
  | unsupportedType
  | emptyFile
  | invalidImage (msg : String)
  | invalidPdf (msg : String)
  | noFiles
  | batchSizeExceeded
  | internal (msg : String)
deriving DecidableEq

/-- Python `str(HTTPException)` for each of the 400-level errors: Python renders
`f"{status_code}: {detail}"`.  The unsupported-type detail joins a Python
set whose iteration order is unspecified; one fixed order is used here
(no claim depends on this text). -/
def apiErrStr : ApiError → String
  | ApiError.filenameRequired => "400: Filename is required"
  | ApiError.unsupportedType =>
    "400: Unsupported file type. Supported types: .png, .jpg, .jpeg, .bmp, .tiff, .webp, .pdf"
  | ApiError.emptyFile => "400: Empty file"
  | ApiError.invalidImage m => "400: Invalid image file: " ++ m
  | ApiError.invalidPdf m => "400: Invalid PDF file: " ++ m
  | ApiError.noFiles => "400: No files provided"
  | ApiError.batchSizeExceeded => "400: Maximum 10 files allowed per batch"
  | ApiError.internal m => "500: " ++ m

/-- Function `validate_file_type` (`main.py` lines 117-133). -/
def validate_file_type (filename : String) : Except ApiError String :=
  if filename = "" then Except.error ApiError.filenameRequired
  else
    let ext := suffixLower filename
    if ext ∈ SUPPORTED_IMAGE_TYPES then Except.ok "image"
    else if ext ∈ SUPPORTED_PDF_TYPES then Except.ok "pdf"
    else Except.error ApiError.unsupportedType

/-! ### main.py: single-document extraction -/

/-- Line 208 of `main.py`:
`"\n\n".join([f"--- Page {i+1} ---\n{text}" for i, text in enumerate(page_texts)])`. -/
def combinePages (pageTexts : List String) : String :=
  String.intercalate "\n\n"
    (pageTexts.enum.map (fun p => "--- Page " ++ toString (p.1 + 1) ++ " ---\n" ++ p.2))

/-- The two JSON response shapes of the `/extract-text` endpoint:
the no-text response (lines 216-224) and the success response (lines 228-234). -/
inductive ExtractResponse where
  | noText (fileType : String) (filename : String)
  | success (text : String) (fileType : String) (filename : String)
      (textLength : Nat) (language : String)
deriving DecidableEq

/-- Endpoint `extract_text` (`main.py` lines 164-241): validate the filename,
reject empty content, extract via the image or PDF service path (wrapping
service failures as 400 errors), then return the no-text response when the
combined text is empty or whitespace, else the success response.
HTTPExceptions propagate unchanged (`except HTTPException: raise`). -/
def extract_text (env : OcrEnv) (filename : String) (content : List Nat)
    (language : String) (dpi : Nat) : Except ApiError ExtractResponse :=
  match validate_file_type filename with
  | Except.error e => Except.error e
  | Except.ok file_type =>
    if content = [] then Except.error ApiError.emptyFile
    else
      let textRes : Except ApiError String :=
        if file_type = "image" then
          match extract_text_from_image_bytes env content language with
          | Except.ok t => Except.ok t
          | Except.error e => Except.error (ApiError.invalidImage e)
        else
          match extract_text_from_pdf_bytes env content language dpi with
          | Except.ok pageTexts => Except.ok (combinePages pageTexts)
          | Except.error e => Except.error (ApiError.invalidPdf e)
      match textRes with
      | Except.error e => Except.error e
      | Except.ok extracted =>
        if extracted = "" ∨ pyStripS extracted = "" then
          Except.ok (ExtractResponse.noText file_type filename)
        else
          Except.ok (ExtractResponse.success extracted file_type filename
            extracted.length language)

/-! ### main.py: batch extraction -/

/-- One submitted file in a batch: its declared filename and content bytes. -/
structure BatchDoc where
  filename : String
  content : List Nat
deriving DecidableEq

/-- One entry of the batch `results` list: the success dict
(lines 279-285) or the error dict (lines 289-295). -/
inductive BatchItem where
  | success (filename : String) (fileType : String) (text : String) (textLength : Nat)
  | error (filename : String) (fileType : String) (text : String) (errMsg : String)
deriving DecidableEq

/-- The `status` field of a batch item dict. -/
def BatchItem.status : BatchItem → String
  | BatchItem.success _ _ _ _ => "success"
  | BatchItem.error _ _ _ _ => "error"

/-- Body of the inner `try` of the per-file loop of `extract_text_batch`
(`main.py` lines 268-285): read, validate, extract (PDF path with the
default dpi = 300), producing the classified type and extracted text. -/
def processOneAttempt (env : OcrEnv) (lang : String) (d : BatchDoc) :
    Except String (String × String) := do
  let ftype ← (validate_file_type d.filename).mapError apiErrStr
  let text ←
    if ftype = "image" then extract_text_from_image_bytes env d.content lang
    else (extract_text_from_pdf_bytes env d.content lang 300).map combinePages
  pure (ftype, text)

/-- One iteration of the per-file loop of `extract_text_batch` (`main.py`
lines 267-295): on success, the success item; any exception is caught and
becomes the error item with file type unknown and empty text. -/
def processOne (env : OcrEnv) (lang : String) (d : BatchDoc) : BatchItem :=
  match processOneAttempt env lang d with
  | Except.ok r => BatchItem.success d.filename r.1 r.2 r.2.length
  | Except.error msg => BatchItem.error d.filename "unknown" "" msg

/-- The batch response dict (`main.py` lines 297-302). -/
structure BatchResponse where
  results : List BatchItem
  total_files : Nat
  successful : Nat
  failed : Nat
deriving DecidableEq

/-- The `try` body of `extract_text_batch` (`main.py` lines 258-302):
empty-batch and size-limit pre-flight checks, then the per-file loop and
the summary counts. -/
def extract_text_batch_inner (env : OcrEnv) (docs : List BatchDoc)
    (lang : String) : Except ApiError BatchResponse :=
  if docs = [] then Except.error ApiError.noFiles
  else if docs.length > 10 then Except.error ApiError.batchSizeExceeded
  else
    let results := docs.map (processOne env lang)
    Except.ok
      { results := results
        total_files := docs.length
        successful := (results.filter (fun r => r.status == "success")).length
        failed := (results.filter (fun r => r.status == "error")).length }

/-- Endpoint `extract_text_batch` (`main.py` lines 243-306).  Its catch-all
`except Exception` also catches the pre-flight HTTPExceptions and re-raises
them as HTTPException(500, "Batch processing failed: {str(e)}"). -/
def extract_text_batch (env : OcrEnv) (docs : List BatchDoc)
    (lang : String) : Except ApiError BatchResponse :=
  match extract_text_batch_inner env docs lang with
  | Except.ok r => Except.ok r
  | Except.error e => Except.error (ApiError.internal ("Batch processing failed: " ++ apiErrStr e))

/-! ### Spec-side definitions (for refinement comparison only) -/

/-- Status of one page as described by the spec (section 3, PageResult). -/
inductive SpecPage where
  | ok (text : String)
  | noTextDetected
  | error
deriving DecidableEq

/-- Combined text as the spec claims it is assembled: every page
contributes its 1-based marker line, pages joined by a blank line, and
only `Ok` pages contribute text after their marker. -/
def specCombinedText (pages : List SpecPage) : String :=
  String.intercalate "\n\n"
    (pages.enum.map (fun p =>
      "--- Page " ++ toString (p.1 + 1) ++ " ---" ++
      match p.2 with
      | SpecPage.ok t => "\n" ++ t
      | SpecPage.noTextDetected => ""
      | SpecPage.error => ""))

/-- Per-page pipeline as the spec claims it behaves (section 4.5): on
recognition failure, retry once against the original unprocessed image
with the same language; only if the retry also fails is the page an error. -/
def specPdfPageText (env : OcrEnv) (lang : String) (i : Nat) (img : PILImage) : String :=
  let proc := preprocess_image_for_ocr env.ops img
  match env.imageToString proc lang ocrConfig with
  | Except.ok raw =>
    let t := pyStripS raw
    if t = "" then "[Page " ++ toString (i + 1) ++ ": No text detected]" else t
  | Except.error _ =>
    match env.imageToString img lang ocrConfig with
    | Except.ok raw =>
      let t := pyStripS raw
      if t = "" then "[Page " ++ toString (i + 1) ++ ": No text detected]" else t
    | Except.error _ => "[Page " ++ toString (i + 1) ++ ": Processing error]"

/-! ### Concrete environments for witnesses and counterexamples -/

/-- Image operations that always succeed, bumping the buffer identifier
on each step (so the preprocessed image differs from the original). -/
def demoOps : ImageOps where
  convert := fun img m => Except.ok ⟨m, img.ident + 1⟩
  enhanceContrast := fun img => Except.ok ⟨img.mode, img.ident + 1⟩
  gaussianBlur := fun img => Except.ok ⟨img.mode, img.ident + 1⟩

/-- A benign environment: decoding succeeds on nonempty bytes, recognition
always yields the same raw text, PDFs rasterize to two pages. -/
def demoEnv : OcrEnv where
  imageOpen := fun b =>
    if b.isEmpty then Except.error "cannot identify image file" else Except.ok ⟨"RGB", 0⟩
  ops := demoOps
  imageToString := fun _ _ _ => Except.ok " Hello   World "
  convertFromBytes := fun b _ =>
    if b.isEmpty then Except.error "no pages" else Except.ok [⟨"RGB", 0⟩, ⟨"RGB", 50⟩]

/-- Environment whose recognizer succeeds only on the pristine buffer 0
(the unpreprocessed image) and fails on every preprocessed buffer. -/
def retryEnv : OcrEnv where
  imageOpen := fun _ => Except.ok ⟨"RGB", 0⟩
  ops := demoOps
  imageToString := fun img _ _ =>
    if img.ident = 0 then Except.ok "hello" else Except.error "ocr fail"
  convertFromBytes := fun _ _ => Except.ok [⟨"RGB", 0⟩]

/-- Environment whose recognizer succeeds only on the pristine buffer 0,
yielding text with an interior double space. -/
def doubleSpaceEnv : OcrEnv where
  imageOpen := fun _ => Except.ok ⟨"RGB", 0⟩
  ops := demoOps
  imageToString := fun img _ _ =>
    if img.ident = 0 then Except.ok "a  b" else Except.error "ocr fail"
  convertFromBytes := fun _ _ => Except.error "unused"

/-- Environment in which recognition always succeeds with empty text:
every page is a no-text-detected page. -/
def blankPageEnv : OcrEnv where
  imageOpen := fun _ => Except.error "unused"
  ops := demoOps
  imageToString := fun _ _ _ => Except.ok ""
  convertFromBytes := fun _ _ => Except.ok [⟨"RGB", 0⟩]

/-- Image operations in which conversion to RGB succeeds (producing a new
buffer) but every other conversion fails. -/
def rgbOnlyOps : ImageOps where
  convert := fun _ m =>
    if m = "RGB" then Except.ok ⟨"RGB", 100⟩ else Except.error "convert failed"
  enhanceContrast := fun img => Except.ok img
  gaussianBlur := fun img => Except.ok img

deriving instance DecidableEq for Except

/-! ### Helper lemmas -/

/-- Every batch item's status is the success tag or the error tag, so the
two filtered counts partition the results list. -/
theorem batchItem_filter_partition (l : List BatchItem) :
    (l.filter (fun r => r.status == "success")).length
      + (l.filter (fun r => r.status == "error")).length = l.length := by
  induction l with
  | nil => rfl
  | cons a t ih =>
    cases a <;> simp [List.filter_cons, BatchItem.status] at ih ⊢ <;> omega

/-- A per-file batch result is either a success item carrying the classified
type and extracted text, or the error item for that file. -/
theorem processOne_cases (env : OcrEnv) (lang : String) (d : BatchDoc) :
    (∃ ft t, processOne env lang d = BatchItem.success d.filename ft t t.length) ∨
    (∃ emsg, processOne env lang d = BatchItem.error d.filename "unknown" "" emsg) := by
  unfold processOne
  cases h : processOneAttempt env lang d with
  | ok r => exact Or.inl ⟨r.1, r.2, rfl⟩
  | error msg => exact Or.inr ⟨msg, rfl⟩

/-- A successful batch call reports exactly the per-file loop results, in
input order, with the input length as the file total. -/
theorem extract_text_batch_ok_shape (env : OcrEnv) (lang : String)
    (docs : List BatchDoc) (resp : BatchResponse)
    (h : extract_text_batch env docs lang = Except.ok resp) :
    resp.results = docs.map (processOne env lang) ∧ resp.total_files = docs.length := by
  by_cases h1 : docs = []
  · simp [extract_text_batch, extract_text_batch_inner, h1] at h
  · by_cases h2 : docs.length > 10
    · simp [extract_text_batch, extract_text_batch_inner, h1, h2] at h
    · simp [extract_text_batch, extract_text_batch_inner, h1, h2] at h
      rw [← h]
      exact ⟨rfl, rfl⟩

/-! ### C2 -/

/-- C2 counterexample: a batch of zero documents is within the size limit,
yet the code rejects it (HTTPException "No files provided", re-wrapped by the
catch-all as a 500) and produces no items at all. -/
theorem c2_counterexample :
    extract_text_batch demoEnv [] "eng" =
      Except.error (ApiError.internal "Batch processing failed: 400: No files provided") ∧
    (extract_text_batch demoEnv [] "eng").toOption = none := by
  exact ⟨by decide, by decide⟩

/-- C2 (amended): for every nonempty batch within the size limit, every
document is attempted independently — the results are exactly the map of the
per-file processor over the input, hence input order is preserved and a
failure of one document cannot affect any other — and
successful + failed = total_files = number of items = number of documents. -/
theorem c2_batch_isolation (env : OcrEnv) (lang : String) (docs : List BatchDoc)
    (h1 : docs ≠ []) (h2 : docs.length ≤ 10) :
    extract_text_batch env docs lang = Except.ok
      { results := docs.map (processOne env lang)
        total_files := docs.length
        successful := ((docs.map (processOne env lang)).filter (fun r => r.status == "success")).length
        failed := ((docs.map (processOne env lang)).filter (fun r => r.status == "error")).length } ∧
    ((docs.map (processOne env lang)).filter (fun r => r.status == "success")).length
      + ((docs.map (processOne env lang)).filter (fun r => r.status == "error")).length
      = (docs.map (processOne env lang)).length ∧
    (docs.map (processOne env lang)).length = docs.length := by
  have h2' : ¬ docs.length > 10 := by omega
  refine ⟨?_, batchItem_filter_partition _, by simp⟩
  simp [extract_text_batch, extract_text_batch_inner, h1, h2']

/-- C2 witness: a 3-document batch whose middle document has an unsupported
name yields three ordered items with the middle one in error. -/
theorem c2_batch_isolation_witness :
    ([⟨"a.png", [1]⟩, ⟨"b.xyz", [1]⟩, ⟨"c.png", [2]⟩] : List BatchDoc) ≠ [] ∧
    extract_text_batch demoEnv [⟨"a.png", [1]⟩, ⟨"b.xyz", [1]⟩, ⟨"c.png", [2]⟩] "eng" =
      Except.ok
        { results := [BatchItem.success "a.png" "image" "Hello World" 11,
                      BatchItem.error "b.xyz" "unknown" "" (apiErrStr ApiError.unsupportedType),
                      BatchItem.success "c.png" "image" "Hello World" 11]
          total_files := 3
          successful := 2
          failed := 1 } :=
  ⟨by decide,
    ((c2_batch_isolation demoEnv "eng" [⟨"a.png", [1]⟩, ⟨"b.xyz", [1]⟩, ⟨"c.png", [2]⟩]
      (by decide) (by decide)).1).trans (by decide)⟩

/-! ### C4 -/

/-- C4: classification is a function of the filename alone; a supported
lowercase image suffix classifies as image, a `.pdf` suffix as pdf, and an
empty filename or any other suffix is rejected with the corresponding
classification error. -/
theorem c4_classify (filename : String) :
    (suffixLower filename ∈ SUPPORTED_IMAGE_TYPES →
      validate_file_type filename = Except.ok "image") ∧
    (suffixLower filename = ".pdf" →
      validate_file_type filename = Except.ok "pdf") ∧
    (filename = "" →
      validate_file_type filename = Except.error ApiError.filenameRequired) ∧
    (filename ≠ "" → suffixLower filename ∉ SUPPORTED_IMAGE_TYPES →
      suffixLower filename ≠ ".pdf" →
      validate_file_type filename = Except.error ApiError.unsupportedType) := by
  refine ⟨?_, ?_, ?_, ?_⟩
  · intro h
    have hne : ¬ filename = "" := by
      intro he; rw [he] at h; exact absurd h (by decide)
    simp [validate_file_type, hne, h]
  · intro h
    have hne : ¬ filename = "" := by
      intro he; rw [he] at h; exact absurd h (by decide)
    have hni : suffixLower filename ∉ SUPPORTED_IMAGE_TYPES := by
      rw [h]; decide
    simp [validate_file_type, hne, hni, h, SUPPORTED_PDF_TYPES]
    decide
  · intro h
    simp [validate_file_type, h]
  · intro hne hni hnp
    have hnp' : suffixLower filename ∉ SUPPORTED_PDF_TYPES := by
      simp [SUPPORTED_PDF_TYPES, hnp]
    simp [validate_file_type, hne, hni, hnp']

/-- C4 witness: an uppercase image name classifies as image. -/
theorem c4_classify_witness :
    suffixLower "Photo.JPG" ∈ SUPPORTED_IMAGE_TYPES ∧
    validate_file_type "Photo.JPG" = Except.ok "image" :=
  ⟨by decide, (c4_classify "Photo.JPG").1 (by decide)⟩

/-! ### C8 -/

/-- C8: a batch of more than 10 documents is rejected up front — the result
is the batch-size-exceeded failure (re-wrapped by the catch-all as a 500),
carries no items, and is the same for every OCR environment, so no document
was processed. -/
theorem c8_batch_size_preflight (env : OcrEnv) (lang : String) (docs : List BatchDoc)
    (h : docs.length > 10) :
    extract_text_batch env docs lang =
      Except.error
        (ApiError.internal "Batch processing failed: 400: Maximum 10 files allowed per batch") ∧
    ∀ env2 : OcrEnv, extract_text_batch env2 docs lang = extract_text_batch env docs lang := by
  have hne : ¬ docs = [] := by
    intro he; rw [he] at h; exact absurd h (by decide)
  constructor
  · simp [extract_text_batch, extract_text_batch_inner, hne, h]
    rfl
  · intro env2
    simp [extract_text_batch, extract_text_batch_inner, hne, h]

/-- C8 witness: an 11-document batch is rejected with no results. -/
theorem c8_batch_size_preflight_witness :
    (List.replicate 11 (⟨"a.png", [1]⟩ : BatchDoc)).length > 10 ∧
    extract_text_batch demoEnv (List.replicate 11 ⟨"a.png", [1]⟩) "eng" =
      Except.error
        (ApiError.internal "Batch processing failed: 400: Maximum 10 files allowed per batch") :=
  ⟨by decide,
    (c8_batch_size_preflight demoEnv "eng" (List.replicate 11 ⟨"a.png", [1]⟩) (by decide)).1⟩

/-! ### C9 -/

/-- C9 counterexample: the zero-byte document named "a.exe" fails with the
unsupported-type classification error, not the empty-file error, because
`validate_file_type` runs before the empty-content check. -/
theorem c9_counterexample :
    extract_text demoEnv "a.exe" [] "eng" 300 = Except.error ApiError.unsupportedType ∧
    (Except.error ApiError.unsupportedType : Except ApiError ExtractResponse) ≠
      Except.error ApiError.emptyFile := by
  exact ⟨by decide, by decide⟩

/-- C9 (amended): for every zero-byte document whose filename classifies
successfully, extraction fails with the empty-file error, for every OCR
environment alike — so no rasterization or recognition work is performed.
A zero-byte document with an unclassifiable filename instead fails with the
classification error, likewise before any recognition work. -/
theorem c9_empty_fastfail (env : OcrEnv) (filename lang : String) (dpi : Nat)
    (ft : String) (h : validate_file_type filename = Except.ok ft) :
    extract_text env filename [] lang dpi = Except.error ApiError.emptyFile := by
  simp [extract_text, h]

/-- C9 witness: a zero-byte PNG submission is rejected as an empty file. -/
theorem c9_empty_fastfail_witness :
    validate_file_type "a.png" = Except.ok "image" ∧
    extract_text demoEnv "a.png" [] "eng" 300 = Except.error ApiError.emptyFile :=
  ⟨by decide, c9_empty_fastfail demoEnv "a.png" "eng" 300 "image" (by decide)⟩

/-! ### C10 -/

/-- C10: in every successful batch response, an item whose processing failed
is the error item of its document: status error, file type unknown and empty
text, regardless of how far that document got before failing. -/
theorem c10_error_item_shape (env : OcrEnv) (lang : String) (docs : List BatchDoc)
    (resp : BatchResponse) (h : extract_text_batch env docs lang = Except.ok resp) :
    ∀ item ∈ resp.results, item.status = "error" →
      ∃ fn emsg, item = BatchItem.error fn "unknown" "" emsg := by
  obtain ⟨hres, -⟩ := extract_text_batch_ok_shape env lang docs resp h
  rw [hres]
  intro item hmem hstat
  obtain ⟨d, -, rfl⟩ := List.mem_map.1 hmem
  rcases processOne_cases env lang d with ⟨ft, t, hd⟩ | ⟨emsg, hd⟩
  · rw [hd] at hstat
    simp [BatchItem.status] at hstat
  · exact ⟨d.filename, emsg, hd⟩

/-- C10 witness: a single-document batch whose document fails classification
yields the canonical error item. -/
theorem c10_error_item_shape_witness :
    extract_text_batch demoEnv [⟨"b.xyz", [1]⟩] "eng" = Except.ok
      { results := [BatchItem.error "b.xyz" "unknown" "" (apiErrStr ApiError.unsupportedType)]
        total_files := 1
        successful := 0
        failed := 1 } ∧
    ∃ fn emsg, BatchItem.error "b.xyz" "unknown" "" (apiErrStr ApiError.unsupportedType) =
      BatchItem.error fn "unknown" "" emsg :=
  ⟨by decide,
    c10_error_item_shape demoEnv "eng" [⟨"b.xyz", [1]⟩]
      { results := [BatchItem.error "b.xyz" "unknown" "" (apiErrStr ApiError.unsupportedType)]
        total_files := 1
        successful := 0
        failed := 1 } (by decide)
      (BatchItem.error "b.xyz" "unknown" "" (apiErrStr ApiError.unsupportedType))
      (by decide) (by decide)⟩

/-! ### C5 -/

/-- C5 counterexample: for a non-RGB input whose RGB conversion succeeds
before the grayscale step fails, the preprocessor returns the RGB-converted
image, not the original unmodified image — the local variable was rebound
before the exception. -/
theorem c5_counterexample :
    preprocess_image_for_ocr rgbOnlyOps ⟨"P", 0⟩ = ⟨"RGB", 100⟩ ∧
    (⟨"RGB", 100⟩ : PILImage) ≠ ⟨"P", 0⟩ := by
  exact ⟨by decide, by decide⟩

/-- C5 (amended): preprocessing never fails observably (it is a total
function into images).  If the initial RGB conversion itself fails, the
original image is returned; an already-RGB input passes the RGB step
unmodified; and once the RGB step yielded an image, any later failure
(grayscale, contrast, blur) returns that possibly-converted image — the
original only when the input was already RGB or no conversion happened. -/
theorem c5_preprocess_fallback (ops : ImageOps) (img : PILImage) :
    (∀ e, rgbStep ops img = Except.error e → preprocess_image_for_ocr ops img = img) ∧
    (img.mode = "RGB" → rgbStep ops img = Except.ok img) ∧
    (∀ img1, rgbStep ops img = Except.ok img1 →
      (∀ e, ops.convert img1 "L" = Except.error e →
        preprocess_image_for_ocr ops img = img1) ∧
      (∀ gray e, ops.convert img1 "L" = Except.ok gray →
        ops.enhanceContrast gray = Except.error e →
        preprocess_image_for_ocr ops img = img1) ∧
      (∀ gray enh e, ops.convert img1 "L" = Except.ok gray →
        ops.enhanceContrast gray = Except.ok enh →
        ops.gaussianBlur enh = Except.error e →
        preprocess_image_for_ocr ops img = img1)) := by
  refine ⟨?_, ?_, ?_⟩
  · intro e he
    simp [preprocess_image_for_ocr, he]
  · intro hm
    simp [rgbStep, hm]
  · intro img1 h1
    refine ⟨?_, ?_, ?_⟩
    · intro e he
      simp [preprocess_image_for_ocr, h1, he]
    · intro gray e hg he
      simp [preprocess_image_for_ocr, h1, hg, he]
    · intro gray enh e hg hen hb
      simp [preprocess_image_for_ocr, h1, hg, hen, hb]

/-- C5 witness: an RGB input whose grayscale conversion fails comes back
unchanged. -/
theorem c5_preprocess_fallback_witness :
    rgbStep rgbOnlyOps ⟨"RGB", 7⟩ = Except.ok ⟨"RGB", 7⟩ ∧
    rgbOnlyOps.convert ⟨"RGB", 7⟩ "L" = Except.error "convert failed" ∧
    preprocess_image_for_ocr rgbOnlyOps ⟨"RGB", 7⟩ = ⟨"RGB", 7⟩ :=
  ⟨by decide, by decide,
    ((c5_preprocess_fallback rgbOnlyOps ⟨"RGB", 7⟩).2.2 ⟨"RGB", 7⟩ (by decide)).1
      "convert failed" (by decide)⟩

/-! ### C6 -/

/-- C6 counterexample: when the primary path fails and the fallback
recognition succeeds with interior double-spaced text, that text is
returned only stripped — it is not collapse-normalized. -/
theorem c6_counterexample :
    extract_text_from_image_bytes doubleSpaceEnv [1] "eng" = Except.ok "a  b" ∧
    cleanTextS "a  b" ≠ "a  b" := by
  exact ⟨by decide, by decide⟩

/-- C6 (amended): text recognized on the primary (preprocessed) path is
trimmed and interior-whitespace-collapsed; text recognized on the
retry-with-original-image fallback is only trimmed, interior whitespace
runs preserved. -/
theorem c6_normalization_paths (env : OcrEnv) (bytes : List Nat) (lang : String)
    (img : PILImage) (hopen : env.imageOpen bytes = Except.ok img) :
    (∀ raw,
      env.imageToString (preprocess_image_for_ocr env.ops img) lang ocrConfig = Except.ok raw →
      extract_text_from_image_bytes env bytes lang = Except.ok (cleanTextS raw)) ∧
    (∀ e img2 raw,
      env.imageToString (preprocess_image_for_ocr env.ops img) lang ocrConfig = Except.error e →
      rgbStep env.ops img = Except.ok img2 →
      env.imageToString img2 lang ocrConfig = Except.ok raw →
      extract_text_from_image_bytes env bytes lang = Except.ok (pyStripS raw)) := by
  constructor
  · intro raw hrec
    simp [extract_text_from_image_bytes, hopen, hrec, Bind.bind, Except.bind,
      Functor.map, Except.map, Pure.pure, Except.pure]
  · intro e img2 raw h1 h2 h3
    simp [extract_text_from_image_bytes, hopen, h1, h2, h3, Bind.bind, Except.bind,
      Functor.map, Except.map, Pure.pure, Except.pure]

/-- C6 witness: fallback-path text keeps its interior double space. -/
theorem c6_normalization_paths_witness :
    doubleSpaceEnv.imageOpen [1] = Except.ok ⟨"RGB", 0⟩ ∧
    extract_text_from_image_bytes doubleSpaceEnv [1] "eng" = Except.ok "a  b" :=
  ⟨by decide,
    ((c6_normalization_paths doubleSpaceEnv [1] "eng" ⟨"RGB", 0⟩ (by decide)).2
      "ocr fail" ⟨"RGB", 0⟩ "a  b" (by decide) (by decide) (by decide)).trans (by decide)⟩

/-! ### C3 -/

/-- C3 counterexample: a PDF page whose preprocessed-image recognition fails
is immediately marked as a processing error, even though recognizing the
original unprocessed image would have succeeded — the per-page loop has no
retry, unlike the spec's claimed single-shot fallback. -/
theorem c3_counterexample :
    extract_text_from_pdf_bytes retryEnv [9] "eng" 300 =
      Except.ok ["[Page 1: Processing error]"] ∧
    specPdfPageText retryEnv "eng" 0 ⟨"RGB", 0⟩ = "hello" ∧
    ("[Page 1: Processing error]" : String) ≠ "hello" := by
  exact ⟨by decide, by decide, by decide⟩

/-- C3 (amended): the retry-once-with-the-original-image fallback exists
only on the single-image path, where a primary failure leads to exactly one
more recognition attempt on the re-opened, unpreprocessed (RGB-converted)
image with the same language, the original error surfacing if that also
fails; a PDF page whose recognition fails is immediately assigned the
processing-error placeholder with no second attempt, and sibling pages are
unaffected because every page's entry is a function of that page alone. -/
theorem c3_retry_semantics (env : OcrEnv) (lang : String) :
    (∀ bytes img e, env.imageOpen bytes = Except.ok img →
      env.imageToString (preprocess_image_for_ocr env.ops img) lang ocrConfig =
        Except.error e →
      extract_text_from_image_bytes env bytes lang =
        (match Except.bind (rgbStep env.ops img)
            (fun i2 => env.imageToString i2 lang ocrConfig) with
         | Except.ok raw => Except.ok (pyStripS raw)
         | Except.error _ => Except.error ("Image processing failed: " ++ e))) ∧
    (∀ i img e,
      env.imageToString (preprocess_image_for_ocr env.ops img) lang ocrConfig =
        Except.error e →
      pdfPageText env lang i img = "[Page " ++ toString (i + 1) ++ ": Processing error]") ∧
    (∀ pdfBytes dpi pages, env.convertFromBytes pdfBytes dpi = Except.ok pages →
      extract_text_from_pdf_bytes env pdfBytes lang dpi =
        Except.ok (pages.enum.map (fun p => pdfPageText env lang p.1 p.2))) := by
  refine ⟨?_, ?_, ?_⟩
  · intro bytes img e hopen herr
    cases h2 : rgbStep env.ops img with
    | error e2 =>
      simp [extract_text_from_image_bytes, hopen, herr, h2, Bind.bind, Except.bind,
        Functor.map, Except.map, Pure.pure, Except.pure]
    | ok img2 =>
      cases h3 : env.imageToString img2 lang ocrConfig with
      | error e3 =>
        simp [extract_text_from_image_bytes, hopen, herr, h2, h3, Bind.bind, Except.bind,
          Functor.map, Except.map, Pure.pure, Except.pure]
      | ok raw =>
        simp [extract_text_from_image_bytes, hopen, herr, h2, h3, Bind.bind, Except.bind,
          Functor.map, Except.map, Pure.pure, Except.pure]
  · intro i img e herr
    simp [pdfPageText, herr]
  · intro pdfBytes dpi pages hp
    simp [extract_text_from_pdf_bytes, hp]

/-- C3 witness: on the single-image path the fallback recognition on the
original image rescues a failed primary attempt. -/
theorem c3_retry_semantics_witness :
    retryEnv.imageOpen [9] = Except.ok ⟨"RGB", 0⟩ ∧
    retryEnv.imageToString (preprocess_image_for_ocr retryEnv.ops ⟨"RGB", 0⟩) "eng" ocrConfig =
      Except.error "ocr fail" ∧
    extract_text_from_image_bytes retryEnv [9] "eng" = Except.ok "hello" :=
  ⟨by decide, by decide,
    ((c3_retry_semantics retryEnv "eng").1 [9] ⟨"RGB", 0⟩ "ocr fail"
      (by decide) (by decide)).trans (by decide)⟩

/-! ### C1 -/

/-- C1 counterexample: a one-page PDF whose page has no detectable text
produces the combined text marker line followed by the no-text placeholder,
whereas the spec's assembly would produce the bare marker line — a
non-Ok page does contribute text beyond its marker line. -/
theorem c1_counterexample :
    extract_text blankPageEnv "d.pdf" [7] "eng" 300 =
      Except.ok (ExtractResponse.success "--- Page 1 ---\n[Page 1: No text detected]"
        "pdf" "d.pdf" 41 "eng") ∧
    specCombinedText [SpecPage.noTextDetected] = "--- Page 1 ---" ∧
    ("--- Page 1 ---\n[Page 1: No text detected]" : String) ≠ "--- Page 1 ---" := by
  exact ⟨by decide, by decide, by decide⟩

/-- C1 (amended): a PDF document's combined text is assembled in physical
page order by joining, with a blank line, the 1-based marker line followed
by that page's text for every page; a page whose recognition succeeds with
only whitespace contributes the no-text placeholder after its marker (and a
failed page the processing-error placeholder), rather than a bare marker. -/
theorem c1_pdf_combined_text (env : OcrEnv) (filename lang : String)
    (content : List Nat) (dpi : Nat) (pages : List PILImage)
    (hft : validate_file_type filename = Except.ok "pdf")
    (hc : content ≠ [])
    (hp : env.convertFromBytes content dpi = Except.ok pages) :
    (extract_text env filename content lang dpi =
      (let combined := combinePages (pages.enum.map (fun p => pdfPageText env lang p.1 p.2))
       if combined = "" ∨ pyStripS combined = "" then
         Except.ok (ExtractResponse.noText "pdf" filename)
       else
         Except.ok (ExtractResponse.success combined "pdf" filename combined.length lang))) ∧
    (∀ texts : List String, combinePages texts = String.intercalate "\n\n"
      (texts.enum.map (fun q => "--- Page " ++ toString (q.1 + 1) ++ " ---\n" ++ q.2))) ∧
    (∀ i img raw,
      env.imageToString (preprocess_image_for_ocr env.ops img) lang ocrConfig = Except.ok raw →
      pyStripS raw = "" →
      pdfPageText env lang i img = "[Page " ++ toString (i + 1) ++ ": No text detected]") := by
  refine ⟨?_, fun texts => rfl, ?_⟩
  · simp [extract_text, hft, hc, extract_text_from_pdf_bytes, hp]
  · intro i img raw h hstrip
    simp [pdfPageText, h, hstrip]

/-- C1 witness: the one-page no-text PDF assembles marker plus placeholder. -/
theorem c1_pdf_combined_text_witness :
    validate_file_type "d.pdf" = Except.ok "pdf" ∧
    blankPageEnv.convertFromBytes [7] 300 = Except.ok [⟨"RGB", 0⟩] ∧
    extract_text blankPageEnv "d.pdf" [7] "eng" 300 =
      Except.ok (ExtractResponse.success "--- Page 1 ---\n[Page 1: No text detected]"
        "pdf" "d.pdf" 41 "eng") :=
  ⟨by decide, by decide,
    ((c1_pdf_combined_text blankPageEnv "d.pdf" "eng" [7] 300 [⟨"RGB", 0⟩]
      (by decide) (by decide) (by decide)).1).trans (by decide)⟩

/-! ### C7: whitespace-normalization algebra -/

/-- Modifying the head of a nonempty prefix commutes with appending. -/
theorem modifyHead_append_left {α : Type} (f : α → α) (xs ys : List α) (h : xs ≠ []) :
    (xs ++ ys).modifyHead f = xs.modifyHead f ++ ys := by
  cases xs with
  | nil => exact absurd rfl h
  | cons a t => rfl

/-- Appending one separator ends the current chunk and opens an empty one. -/
theorem splitOnP_append_sep {α : Type} (p : α → Bool) (c : α) (hc : p c = true)
    (s : List α) : (s ++ [c]).splitOnP p = s.splitOnP p ++ [[]] := by
  induction s with
  | nil => simp [List.splitOnP_nil, List.splitOnP_cons, hc]
  | cons a t ih =>
    by_cases hpa : p a = true
    · simp [List.splitOnP_cons, hpa, ih]
    · simp only [List.cons_append, List.splitOnP_cons, hpa, if_false, ih]
      rw [modifyHead_append_left _ _ _ (List.splitOnP_ne_nil p t)]
      simp

/-- A trailing separator contributes no token. -/
theorem pyTokens_append_sep (c : Char) (hc : isPySpace c = true) (s : List Char) :
    pyTokens (s ++ [c]) = pyTokens s := by
  unfold pyTokens
  rw [splitOnP_append_sep isPySpace c hc s, List.filter_append]
  simp

/-- Trailing whitespace contributes no tokens. -/
theorem pyTokens_append_spaces (w : List Char) :
    (∀ c ∈ w, isPySpace c = true) → ∀ s, pyTokens (s ++ w) = pyTokens s := by
  induction w with
  | nil => intro _ s; simp
  | cons c w ih =>
    intro hw s
    have hassoc : s ++ c :: w = (s ++ [c]) ++ w := by simp
    rw [hassoc, ih (fun d hd => hw d (List.mem_cons_of_mem c hd)) (s ++ [c]),
      pyTokens_append_sep c (hw c (List.mem_cons_self c w)) s]

/-- Leading whitespace contributes no tokens. -/
theorem pyTokens_dropWhile (s : List Char) :
    pyTokens (s.dropWhile isPySpace) = pyTokens s := by
  induction s with
  | nil => rfl
  | cons a t ih =>
    rw [List.dropWhile_cons]
    by_cases hp : isPySpace a = true
    · rw [if_pos hp, ih]
      unfold pyTokens
      rw [List.splitOnP_cons, if_pos hp]
      simp
    · rw [if_neg hp]

/-- Stripping never changes the token list. -/
theorem pyTokens_strip (s : List Char) : pyTokens (pyStripL s) = pyTokens s := by
  unfold pyStripL
  have hdecomp : s.dropWhile isPySpace =
      ((s.dropWhile isPySpace).reverse.dropWhile isPySpace).reverse
        ++ ((s.dropWhile isPySpace).reverse.takeWhile isPySpace).reverse := by
    conv_lhs => rw [← List.reverse_reverse (s.dropWhile isPySpace)]
    conv_lhs =>
      rw [← List.takeWhile_append_dropWhile isPySpace (s.dropWhile isPySpace).reverse]
    rw [List.reverse_append]
  have hw : ∀ c ∈ ((s.dropWhile isPySpace).reverse.takeWhile isPySpace).reverse,
      isPySpace c = true := by
    intro c hc
    rw [List.mem_reverse] at hc
    exact List.mem_takeWhile_imp hc
  calc pyTokens (((s.dropWhile isPySpace).reverse.dropWhile isPySpace).reverse)
      = pyTokens (((s.dropWhile isPySpace).reverse.dropWhile isPySpace).reverse
          ++ ((s.dropWhile isPySpace).reverse.takeWhile isPySpace).reverse) :=
        (pyTokens_append_spaces _ hw _).symm
    _ = pyTokens (s.dropWhile isPySpace) := by rw [← hdecomp]
    _ = pyTokens s := pyTokens_dropWhile s

/-- Unfolding of single-space intercalation over at least two chunks. -/
theorem intercalate_space_cons_cons (t t2 : List Char) (ts : List (List Char)) :
    List.intercalate [' '] (t :: t2 :: ts) = t ++ ' ' :: List.intercalate [' '] (t2 :: ts) := by
  simp [List.intercalate, List.intersperse_cons_cons]

/-- Splitting recovers exactly the chunks of a single-space join of nonempty
whitespace-free words. -/
theorem pyTokens_intercalate (ts : List (List Char))
    (h : ∀ t ∈ ts, t ≠ [] ∧ ∀ c ∈ t, isPySpace c = false) :
    pyTokens (List.intercalate [' '] ts) = ts := by
  induction ts with
  | nil => rfl
  | cons t ts ih =>
    obtain ⟨hne, hnosp⟩ := h t (List.mem_cons_self t ts)
    have hfilter : (!t.isEmpty) = true := by
      cases t with
      | nil => exact absurd rfl hne
      | cons a u => rfl
    cases ts with
    | nil =>
      have h1 : List.intercalate [' '] [t] = t := by simp [List.intercalate]
      rw [h1]
      unfold pyTokens
      rw [List.splitOnP_eq_single isPySpace t (fun x hx => by simp [hnosp x hx])]
      simp [List.filter_cons, hfilter]
    | cons t2 ts2 =>
      rw [intercalate_space_cons_cons t t2 ts2]
      unfold pyTokens
      rw [List.splitOnP_first isPySpace t (fun x hx => by simp [hnosp x hx]) ' '
        (by decide) (List.intercalate [' '] (t2 :: ts2))]
      rw [List.filter_cons, hfilter, if_pos rfl]
      have ih2 := ih (fun u hu => h u (List.mem_cons_of_mem t hu))
      unfold pyTokens at ih2
      rw [ih2]

/-- C7: the strip-and-collapse normalization is the identity on every string
that is already trimmed and single-spaced, i.e. on every single-space join
of nonempty whitespace-free words — so normalizing already-normalized text
is a no-op. -/
theorem c7_normalize_noop (s : String) (ts : List (List Char))
    (hs : s.data = List.intercalate [' '] ts)
    (h : ∀ t ∈ ts, t ≠ [] ∧ ∀ c ∈ t, isPySpace c = false) :
    cleanTextS s = s := by
  show String.mk (cleanTextL s.data) = s
  have hd : cleanTextL s.data = s.data := by
    calc cleanTextL s.data
        = List.intercalate [' '] (pyTokens (pyStripL s.data)) := rfl
      _ = List.intercalate [' '] (pyTokens s.data) := by rw [pyTokens_strip]
      _ = List.intercalate [' '] ts := by rw [hs, pyTokens_intercalate ts h]
      _ = s.data := hs.symm
  rw [hd]

/-- C7 witness: the already-normalized string is returned unchanged. -/
theorem c7_normalize_noop_witness :
    ("ab c" : String).data = List.intercalate [' '] [['a', 'b'], ['c']] ∧
    (∀ t ∈ [['a', 'b'], ['c']], t ≠ [] ∧ ∀ c ∈ t, isPySpace c = false) ∧
    cleanTextS "ab c" = "ab c" :=
  ⟨by decide, by decide,
    c7_normalize_noop "ab c" [['a', 'b'], ['c']] (by decide) (by decide)⟩
